import Mathlib

/-!
# modernizer: the self-update routine `Check`

A shallow embedding of `modernizer.go`.  Go strings and byte slices are
modelled by `String`, every character standing for one byte; the case
tables of the `unicode` package are an argument of the model.  The
collaborators of `Check` (the HTTP transport, the filesystem primitives
`rename`, `remove`, `openfile`, and `restart`) act on an explicit `World`;
their failures are supplied by an `Env`.
-/

namespace Modernizer

/-! ## crypto/sha256 and encoding/hex -/

/-- Round constants of SHA-256. -/
def sha256K : List Nat :=
  [0x428a2f98, 0x71374491, 0xb5c0fbcf, 0xe9b5dba5, 0x3956c25b, 0x59f111f1, 0x923f82a4, 0xab1c5ed5,
   0xd807aa98, 0x12835b01, 0x243185be, 0x550c7dc3, 0x72be5d74, 0x80deb1fe, 0x9bdc06a7, 0xc19bf174,
   0xe49b69c1, 0xefbe4786, 0x0fc19dc6, 0x240ca1cc, 0x2de92c6f, 0x4a7484aa, 0x5cb0a9dc, 0x76f988da,
   0x983e5152, 0xa831c66d, 0xb00327c8, 0xbf597fc7, 0xc6e00bf3, 0xd5a79147, 0x06ca6351, 0x14292967,
   0x27b70a85, 0x2e1b2138, 0x4d2c6dfc, 0x53380d13, 0x650a7354, 0x766a0abb, 0x81c2c92e, 0x92722c85,
   0xa2bfe8a1, 0xa81a664b, 0xc24b8b70, 0xc76c51a3, 0xd192e819, 0xd6990624, 0xf40e3585, 0x106aa070,
   0x19a4c116, 0x1e376c08, 0x2748774c, 0x34b0bcb5, 0x391c0cb3, 0x4ed8aa4a, 0x5b9cca4f, 0x682e6ff3,
   0x748f82ee, 0x78a5636f, 0x84c87814, 0x8cc70208, 0x90befffa, 0xa4506ceb, 0xbef9a3f7, 0xc67178f2]

/-- The eight 32-bit words of a SHA-256 chaining value. -/
structure Digest where
  h0 : Nat
  h1 : Nat
  h2 : Nat
  h3 : Nat
  h4 : Nat
  h5 : Nat
  h6 : Nat
  h7 : Nat

/-- Initial chaining value of SHA-256. -/
def sha256Init : Digest :=
  ⟨0x6a09e667, 0xbb67ae85, 0x3c6ef372, 0xa54ff53a, 0x510e527f, 0x9b05688c, 0x1f83d9ab, 0x5be0cd19⟩

/-- Addition of 32-bit words. -/
def add32 (a b : Nat) : Nat := (a + b) % 4294967296

/-- Right rotation of a 32-bit word. -/
def rotr (n x : Nat) : Nat := ((x >>> n) ||| (x <<< (32 - n))) % 4294967296

/-- Bitwise complement of a 32-bit word. -/
def not32 (x : Nat) : Nat := 4294967295 - x % 4294967296

/-- Big-endian 64-bit encoding of a length. -/
def be64 (n : Nat) : List Nat :=
  [(n >>> 56) % 256, (n >>> 48) % 256, (n >>> 40) % 256, (n >>> 32) % 256,
   (n >>> 24) % 256, (n >>> 16) % 256, (n >>> 8) % 256, n % 256]

/-- Message padding: a one bit, zeros, and the bit length, up to a multiple of 64 bytes. -/
def sha256Pad (msg : List Nat) : List Nat :=
  msg ++ [0x80] ++ List.replicate ((119 - msg.length % 64) % 64) 0 ++ be64 (8 * msg.length)

/-- Bytes to big-endian 32-bit words. -/
def toWords : List Nat → List Nat
  | a :: b :: c :: d :: rest => (((a * 256 + b) * 256 + c) * 256 + d) :: toWords rest
  | _ => []

/-- Message schedule: `k` further words appended to the words of a block. -/
def schedule : Nat → List Nat → List Nat
  | 0, w => w
  | k + 1, w =>
    let t := w.length
    let x15 := w.getD (t - 15) 0
    let x2 := w.getD (t - 2) 0
    let s0 := rotr 7 x15 ^^^ rotr 18 x15 ^^^ (x15 >>> 3)
    let s1 := rotr 17 x2 ^^^ rotr 19 x2 ^^^ (x2 >>> 10)
    schedule k (w ++ [add32 (add32 (add32 (w.getD (t - 16) 0) s0) (w.getD (t - 7) 0)) s1])

/-- One round of the compression function. -/
def sha256Round (s : Digest) (kw : Nat × Nat) : Digest :=
  let s1 := rotr 6 s.h4 ^^^ rotr 11 s.h4 ^^^ rotr 25 s.h4
  let ch := (s.h4 &&& s.h5) ^^^ (not32 s.h4 &&& s.h6)
  let t1 := add32 (add32 (add32 (add32 s.h7 s1) ch) kw.1) kw.2
  let s0 := rotr 2 s.h0 ^^^ rotr 13 s.h0 ^^^ rotr 22 s.h0
  let maj := (s.h0 &&& s.h1) ^^^ (s.h0 &&& s.h2) ^^^ (s.h1 &&& s.h2)
  let t2 := add32 s0 maj
  ⟨add32 t1 t2, s.h0, s.h1, s.h2, add32 s.h3 t1, s.h4, s.h5, s.h6⟩

/-- Compression of one 16-word block into the chaining value. -/
def sha256Block (s : Digest) (block : List Nat) : Digest :=
  let r := (sha256K.zip (schedule 48 block)).foldl sha256Round s
  ⟨add32 s.h0 r.h0, add32 s.h1 r.h1, add32 s.h2 r.h2, add32 s.h3 r.h3,
   add32 s.h4 r.h4, add32 s.h5 r.h5, add32 s.h6 r.h6, add32 s.h7 r.h7⟩

/-- Compression of `n` consecutive blocks. -/
def sha256Blocks : Nat → List Nat → Digest → Digest
  | 0, _, s => s
  | n + 1, ws, s => sha256Blocks n (ws.drop 16) (sha256Block s (ws.take 16))

/-- The bytes a Go string holds: one per character. -/
def bytesOf (s : String) : List Nat := s.data.map (fun c => c.toNat % 256)

/-- SHA-256 of a byte string: `hasher.Sum(nil)` after the whole body was written to the hasher. -/
def sha256 (body : String) : Digest :=
  let padded := sha256Pad (bytesOf body)
  sha256Blocks (padded.length / 64) (toWords padded) sha256Init

/-- Lower-case hexadecimal digit. -/
def hexDigit (n : Nat) : Char := "0123456789abcdef".data.getD n '0'

/-- The eight lower-case hexadecimal digits of a 32-bit word. -/
def hexWord (w : Nat) : List Char :=
  [hexDigit (w / 268435456 % 16), hexDigit (w / 16777216 % 16), hexDigit (w / 1048576 % 16),
   hexDigit (w / 65536 % 16), hexDigit (w / 4096 % 16), hexDigit (w / 256 % 16),
   hexDigit (w / 16 % 16), hexDigit (w % 16)]

/-- Lower-case hexadecimal rendering of a digest: `hex.EncodeToString`. -/
def hexEncode (d : Digest) : String :=
  ⟨hexWord d.h0 ++ hexWord d.h1 ++ hexWord d.h2 ++ hexWord d.h3 ++
   hexWord d.h4 ++ hexWord d.h5 ++ hexWord d.h6 ++ hexWord d.h7⟩

/-! ## strings, bufio and path/filepath -/

/-- Result of `strings.TrimSuffix s suffix`. -/
def stringsTrimSuffix (s suffix : String) : String :=
  if suffix.data.isSuffixOf s.data then ⟨s.data.take (s.data.length - suffix.data.length)⟩ else s

/-- Whether `sub` occurs in a list of characters. -/
def containsChars (sub : List Char) : List Char → Bool
  | [] => sub.isPrefixOf []
  | c :: cs => sub.isPrefixOf (c :: cs) || containsChars sub cs

/-- Result of `strings.Contains s substr`. -/
def stringsContains (s substr : String) : Bool := containsChars substr.data s.data

/-- The letters `A` to `Z` of `s` in lower case. -/
def asciiToLower (s : String) : String := ⟨s.data.map Char.toLower⟩

/-- Whether every byte of `s` is below `utf8.RuneSelf`. -/
def isASCII (s : String) : Bool := s.data.all (fun c => decide (c.toNat < 128))

/-- Result of `strings.ToLower s`: the letters `A` to `Z` in lower case when `s` is all ASCII,
and `strings.Map(unicode.ToLower, s)` otherwise.  That mapping goes through the case tables of
the `unicode` package and is taken as the argument `unicodeToLower`. -/
def stringsToLower (unicodeToLower : String → String) (s : String) : String :=
  if isASCII s then asciiToLower s else unicodeToLower s

/-- The parts before and after the first space, when there is one. -/
def cutAtSpace : List Char → Option (List Char × List Char)
  | [] => none
  | c :: cs =>
    if c = ' ' then some ([], cs)
    else match cutAtSpace cs with
      | none => none
      | some (a, b) => some (c :: a, b)

/-- Result of `strings.SplitN s " " 2`. -/
def stringsSplitN2 (s : String) : List String :=
  match cutAtSpace s.data with
  | none => [s]
  | some (a, b) => [⟨a⟩, ⟨b⟩]

/-- The lines of a document: split at every newline, a non-empty unterminated rest being the
last line.  The second argument holds the current line, reversed. -/
def rawLines : List Char → List Char → List (List Char)
  | [], cur => if cur = [] then [] else [cur.reverse]
  | c :: cs, cur => if c = '\n' then cur.reverse :: rawLines cs [] else rawLines cs (c :: cur)

/-- One trailing carriage return dropped, as `bufio.ScanLines` does. -/
def dropCR (line : List Char) : List Char :=
  if line.getLast? = some '\r' then line.dropLast else line

/-- Size of the scanner buffer: `bufio.MaxScanTokenSize`. -/
def maxScanTokenSize : Nat := 64 * 1024

/-- The successive values of `Text()` of a `bufio.Scanner` over `data`: the lines without their
terminators.  A line that does not fit in the buffer together with its newline ends the scan. -/
def bufioScanLines (data : String) : List String :=
  ((rawLines data.data []).takeWhile (fun l => decide (l.length < maxScanTokenSize))).map
    (fun l => ⟨dropCR l⟩)

/-- Result of `filepath.Base` on a cleaned slash-separated path: what follows the last separator. -/
def filepathBase (path : String) : String :=
  ⟨(path.data.reverse.takeWhile (fun c => c != '/')).reverse⟩

/-- Result of `filepath.Dir` on a cleaned slash-separated path: what precedes the last separator,
`/` for an entry of the root and `.` for a path without separator. -/
def filepathDir (path : String) : String :=
  match path.data.reverse.dropWhile (fun c => c != '/') with
  | [] => "."
  | _ :: rest => if rest = [] then "/" else ⟨rest.reverse⟩

/-- Result of `filepath.Join dir name` for a cleaned `dir` and a plain file name. -/
def filepathJoin (dir name : String) : String :=
  if dir = "." then name
  else if dir.data.getLast? = some '/' then dir ++ name
  else dir ++ "/" ++ name

/-! ## The collaborators of `Check` -/

/-- The errors `Check` returns: its own sentinels, or an error of a collaborator. -/
inductive Err
  | errNoCdn
  | errVersion
  | errNewest
  | errSignature
  | errNoMatch
  | errBinary
  | errBadSum
  | external (code : Nat)
deriving DecidableEq, Repr

/-- An HTTP response: its status code, the bytes its body delivers, and the error that ends
the body when reading it fails. -/
structure Response where
  statusCode : Nat
  body : String
  readErr : Option Nat
deriving DecidableEq, Repr

/-- A call to a collaborator. -/
inductive Event
  | get (url : String)
  | openfile (name : String)
  | remove (name : String)
  | rename (oldpath newpath : String)
  | restart (binary : String)
deriving DecidableEq, Repr

/-- What a run of `Check` depends on besides its arguments. -/
structure Env where
  /-- Value of `runtime.GOOS`. -/
  GOOS : String
  /-- Value of `runtime.GOARCH`. -/
  GOARCH : String
  /-- Result of `strings.Map(unicode.ToLower, s)`, which `strings.ToLower` returns for a string
  that is not all ASCII. -/
  unicodeToLower : String → String
  /-- Result of `os.Executable()`. -/
  osExecutable : Except Nat String
  /-- Result of `filepath.EvalSymlinks`. -/
  evalSymlinks : String → Except Nat String
  /-- Result of `http.Get`. -/
  httpGet : String → Except Nat Response
  /-- Error of `openfile` on the staging file. -/
  openfileErr : Option Nat
  /-- Error of a write to the staging file, with the number of bytes stored before it. -/
  writeErr : Option (Nat × Nat)
  /-- Error of the n-th call of `remove`, counted from 0. -/
  removeErr : Nat → Option Nat
  /-- Error of the n-th call of `rename`, counted from 0. -/
  renameErr : Nat → Option Nat
  /-- Error of `restart`. -/
  restartErr : Option Nat

/-- The filesystem, the calls made so far, and how many of them were `remove` and `rename`. -/
structure World where
  files : String → Option String
  trace : List Event
  removes : Nat
  renames : Nat

/-- The world a run starts in. -/
def World.start (files : String → Option String) : World := ⟨files, [], 0, 0⟩

/-- The file `name` set to `content`, or deleted. -/
def World.put (w : World) (name : String) (content : Option String) : World :=
  { w with files := fun q => if q = name then content else w.files q }

/-- A call appended to the trace. -/
def World.record (w : World) (e : Event) : World := { w with trace := w.trace ++ [e] }

/-- Error code of an operation on a file that does not exist. -/
def enoent : Nat := 2

/-- The call `http.Get url`. -/
def httpGet (env : Env) (url : String) (w : World) : Except Nat Response × World :=
  (env.httpGet url, w.record (.get url))

/-- The call `remove name`: `os.Remove`. -/
def remove (env : Env) (name : String) (w : World) : Option Err × World :=
  let w1 := { w.record (.remove name) with removes := w.removes + 1 }
  match env.removeErr w.removes with
  | some e => (some (.external e), w1)
  | none =>
    match w.files name with
    | none => (some (.external enoent), w1)
    | some _ => (none, w1.put name none)

/-- The call `rename oldpath newpath`: `os.Rename`. -/
def rename (env : Env) (oldpath newpath : String) (w : World) : Option Err × World :=
  let w1 := { w.record (.rename oldpath newpath) with renames := w.renames + 1 }
  match env.renameErr w.renames with
  | some e => (some (.external e), w1)
  | none =>
    match w.files oldpath with
    | none => (some (.external enoent), w1)
    | some content => (none, (w1.put oldpath none).put newpath (some content))

/-- The call `openfile name (O_CREATE|O_WRONLY|O_TRUNC) 0755`. -/
def openfile (env : Env) (name : String) (w : World) : Option Err × World :=
  match env.openfileErr with
  | some e => (some (.external e), w.record (.openfile name))
  | none => (none, (w.record (.openfile name)).put name (some ""))

/-- The call `io.Copy(binaryNew, io.TeeReader(body, hasher))` into the file `name`. -/
def ioCopy (env : Env) (name : String) (response : Response) (w : World) : Option Err × World :=
  match env.writeErr with
  | some (n, e) => (some (.external e), w.put name (some ⟨response.body.data.take n⟩))
  | none =>
    match response.readErr with
    | some e => (some (.external e), w.put name (some response.body))
    | none => (none, w.put name (some response.body))

/-- The call `restart binary`. -/
def restart (env : Env) (binary : String) (w : World) : Option Err × World :=
  (env.restartErr.map Err.external, w.record (.restart binary))

/-! ## `Check` -/

/-- The staging path `executableNew`. -/
def executableNew (executable : String) : String :=
  filepathJoin (filepathDir executable) ("." ++ filepathBase executable ++ ".new")

/-- The backup path `executableOld`. -/
def executableOld (executable : String) : String :=
  filepathJoin (filepathDir executable) ("." ++ filepathBase executable ++ ".old")

/-- The loop over the lines of the manifest: the values of `binaryRemoteSum` and
`binaryRemoteFile` when it ends. -/
def scanSignatures (unicodeToLower : String → String) (goos goarch : String) :
    List String → String × String
  | [] => ("", "")
  | text :: rest =>
    if stringsContains (stringsToLower unicodeToLower text) goos &&
        stringsContains text goarch then
      match stringsSplitN2 text with
      | [sum, file] => (sum, file)
      | _ => scanSignatures unicodeToLower goos goarch rest
    else scanSignatures unicodeToLower goos goarch rest

/-- The function `Check version cdn`: the error returned and the world it leaves. -/
def Check (env : Env) (version cdn : String) (w : World) : Option Err × World :=
  let cdn := stringsTrimSuffix cdn "/"
  if cdn = "" then (some .errNoCdn, w) else
  match env.osExecutable with
  | .error e => (some (.external e), w)
  | .ok executableOrigin =>
  match env.evalSymlinks executableOrigin with
  | .error e => (some (.external e), w)
  | .ok executable =>
  let w := (remove env (executableOld executable) w).2
  let versionGet := httpGet env (cdn ++ "/version") w
  let w := versionGet.2
  match versionGet.1 with
  | .error e => (some (.external e), w)
  | .ok versionResponse =>
  if versionResponse.statusCode ≠ 200 then (some .errVersion, w) else
  match versionResponse.readErr with
  | some e => (some (.external e), w)
  | none =>
  if versionResponse.body = version then (some .errNewest, w) else
  let signatureGet := httpGet env (cdn ++ "/sha256sums") w
  let w := signatureGet.2
  match signatureGet.1 with
  | .error e => (some (.external e), w)
  | .ok signatureResponse =>
  if signatureResponse.statusCode ≠ 200 then (some .errSignature, w) else
  match signatureResponse.readErr with
  | some e => (some (.external e), w)
  | none =>
  let found := scanSignatures env.unicodeToLower env.GOOS env.GOARCH
    (bufioScanLines signatureResponse.body)
  let binaryRemoteSum := found.1
  let binaryRemoteFile := found.2
  if binaryRemoteFile = "" ∨ binaryRemoteSum = "" then (some .errNoMatch, w) else
  let binaryGet := httpGet env (cdn ++ "/" ++ binaryRemoteFile) w
  let w := binaryGet.2
  match binaryGet.1 with
  | .error e => (some (.external e), w)
  | .ok binaryResponse =>
  if binaryResponse.statusCode ≠ 200 then (some .errBinary, w) else
  let binaryNew := openfile env (executableNew executable) w
  let w := binaryNew.2
  match binaryNew.1 with
  | some err => (some err, w)
  | none =>
  let copied := ioCopy env (executableNew executable) binaryResponse w
  let w := copied.2
  match copied.1 with
  | some err => (some err, (remove env (executableNew executable) w).2)
  | none =>
  if hexEncode (sha256 binaryResponse.body) ≠ binaryRemoteSum then
    (some .errBadSum, (remove env (executableNew executable) w).2) else
  let renamed := rename env executable (executableOld executable) w
  let w := renamed.2
  match renamed.1 with
  | some err => (some err, (remove env (executableNew executable) w).2)
  | none =>
  let swapped := rename env (executableNew executable) executable w
  let w := swapped.2
  match swapped.1 with
  | some err =>
    let w := (remove env (executableNew executable) w).2
    let w := (remove env executable w).2
    let w := (rename env (executableOld executable) executable w).2
    (some err, w)
  | none =>
  let restarted := restart env executable w
  let w := restarted.2
  match restarted.1 with
  | some err =>
    let w := (remove env executable w).2
    let w := (rename env (executableOld executable) executable w).2
    (some err, w)
  | none => (none, w)

/-! ## The stages of `Check`, for the proofs -/

/-- The part of `Check` from the first rename on. -/
def swapAndRestart (env : Env) (executable : String) (w : World) : Option Err × World :=
  let renamed := rename env executable (executableOld executable) w
  let w := renamed.2
  match renamed.1 with
  | some err => (some err, (remove env (executableNew executable) w).2)
  | none =>
  let swapped := rename env (executableNew executable) executable w
  let w := swapped.2
  match swapped.1 with
  | some err =>
    let w := (remove env (executableNew executable) w).2
    let w := (remove env executable w).2
    let w := (rename env (executableOld executable) executable w).2
    (some err, w)
  | none =>
  let restarted := restart env executable w
  let w := restarted.2
  match restarted.1 with
  | some err =>
    let w := (remove env executable w).2
    let w := (rename env (executableOld executable) executable w).2
    (some err, w)
  | none => (none, w)

/-- The part of `Check` from the fetch of the artifact on. -/
def fetchAndVerify (env : Env) (cdn executable binaryRemoteSum binaryRemoteFile : String)
    (w : World) : Option Err × World :=
  let binaryGet := httpGet env (cdn ++ "/" ++ binaryRemoteFile) w
  let w := binaryGet.2
  match binaryGet.1 with
  | .error e => (some (.external e), w)
  | .ok binaryResponse =>
  if binaryResponse.statusCode ≠ 200 then (some .errBinary, w) else
  let binaryNew := openfile env (executableNew executable) w
  let w := binaryNew.2
  match binaryNew.1 with
  | some err => (some err, w)
  | none =>
  let copied := ioCopy env (executableNew executable) binaryResponse w
  let w := copied.2
  match copied.1 with
  | some err => (some err, (remove env (executableNew executable) w).2)
  | none =>
  if hexEncode (sha256 binaryResponse.body) ≠ binaryRemoteSum then
    (some .errBadSum, (remove env (executableNew executable) w).2) else
  swapAndRestart env executable w

/-- The part of `Check` from the removal of the stale backup on. -/
def resolveAndFetch (env : Env) (version cdn executable : String) (w : World) :
    Option Err × World :=
  let w := (remove env (executableOld executable) w).2
  let versionGet := httpGet env (cdn ++ "/version") w
  let w := versionGet.2
  match versionGet.1 with
  | .error e => (some (.external e), w)
  | .ok versionResponse =>
  if versionResponse.statusCode ≠ 200 then (some .errVersion, w) else
  match versionResponse.readErr with
  | some e => (some (.external e), w)
  | none =>
  if versionResponse.body = version then (some .errNewest, w) else
  let signatureGet := httpGet env (cdn ++ "/sha256sums") w
  let w := signatureGet.2
  match signatureGet.1 with
  | .error e => (some (.external e), w)
  | .ok signatureResponse =>
  if signatureResponse.statusCode ≠ 200 then (some .errSignature, w) else
  match signatureResponse.readErr with
  | some e => (some (.external e), w)
  | none =>
  let found := scanSignatures env.unicodeToLower env.GOOS env.GOARCH
    (bufioScanLines signatureResponse.body)
  if found.2 = "" ∨ found.1 = "" then (some .errNoMatch, w) else
  fetchAndVerify env cdn executable found.1 found.2 w

/-! ## Observations of a run -/

/-- The URLs fetched in a trace, in order. -/
def fetched (trace : List Event) : List String :=
  trace.filterMap (fun e => match e with | .get url => some url | _ => none)

/-- Whether a call is a rename. -/
def Event.isRename : Event → Bool
  | .rename _ _ => true
  | _ => false

/-- The outcome of the first rename of a run started on `files`: the rename of the executable
onto the backup path. -/
def firstRename (env : Env) (executable : String) (files : String → Option String) :
    Option Err :=
  (rename env executable (executableOld executable) (World.start files)).1

/-- The run gets as far as comparing digests: the base URL is not empty once its trailing slash
is trimmed, the path of the executable resolves to `executable`, the fetches of the version, of
the manifest and of the artifact have status 200 and bodies that read without error, the remote
version differs from `version`, the loop over the manifest ends with the sum `d` and the file
`f`, both non-empty, the staging file opens, and the artifact body `b` is written to it in
full. -/
def Streams (env : Env) (version cdn executable d f b : String) : Prop :=
  stringsTrimSuffix cdn "/" ≠ "" ∧
  (∃ origin, env.osExecutable = .ok origin ∧ env.evalSymlinks origin = .ok executable) ∧
  (∃ r, env.httpGet (stringsTrimSuffix cdn "/" ++ "/version") = .ok ⟨200, r, none⟩ ∧
    r ≠ version) ∧
  (∃ m, env.httpGet (stringsTrimSuffix cdn "/" ++ "/sha256sums") = .ok ⟨200, m, none⟩ ∧
    scanSignatures env.unicodeToLower env.GOOS env.GOARCH (bufioScanLines m) = (d, f)) ∧
  f ≠ "" ∧ d ≠ "" ∧
  env.httpGet (stringsTrimSuffix cdn "/" ++ "/" ++ f) = .ok ⟨200, b, none⟩ ∧
  env.openfileErr = none ∧ env.writeErr = none

/-! ## The selection of the artifact in the words of the specification -/

/-- Following the words of the specification: the records of a manifest, one per line, each of
the form `<digestHex><whitespace><filename>`. -/
def specRecords (manifest : String) : List (String × String) :=
  (rawLines manifest.data []).map fun l =>
    (⟨l.takeWhile (fun c => !c.isWhitespace)⟩,
     ⟨(l.dropWhile (fun c => !c.isWhitespace)).dropWhile Char.isWhitespace⟩)

/-- Following the words of the specification: the first record, in document order, whose
filename contains the operating-system identifier, case-insensitively, and the architecture
identifier, case-sensitively. -/
def specSelect (unicodeToLower : String → String) (os arch manifest : String) :
    Option (String × String) :=
  (specRecords manifest).find? fun record =>
    stringsContains (stringsToLower unicodeToLower record.2) (stringsToLower unicodeToLower os) &&
      stringsContains record.2 arch

/-! ## Concrete environments -/

/-- The mapping of the strings that are not all ASCII in the concrete environments below.  Their
manifests are all ASCII, so that it is not consulted. -/
def notConsulted : String → String := fun s => s

/-- An environment as in the tests of the package: host `linux`/`amd64`, the executable at
`/opt/app/tool`, a server holding version `2`, the given manifest, and the given artifact under
every other name; `remove`, `rename` and `restart` fail as given. -/
def testEnv (manifest artifact : String) (removeErr renameErr : Nat → Option Nat)
    (restartErr : Option Nat) : Env where
  GOOS := "linux"
  GOARCH := "amd64"
  unicodeToLower := notConsulted
  osExecutable := .ok "/opt/app/tool"
  evalSymlinks := fun p => .ok p
  httpGet := fun url =>
    if url = "http://cdn/version" then .ok ⟨200, "2", none⟩
    else if url = "http://cdn/sha256sums" then .ok ⟨200, manifest, none⟩
    else .ok ⟨200, artifact, none⟩
  openfileErr := none
  writeErr := none
  removeErr := removeErr
  renameErr := renameErr
  restartErr := restartErr

/-- No failure at any call. -/
def noErr : Nat → Option Nat := fun _ => none

/-- A failure with code `e` at call `k`, none at the other calls. -/
def errAt (k e : Nat) : Nat → Option Nat := fun n => if n = k then some e else none

/-- The manifest of the tests: the digest of the served artifact and its name. -/
def testManifest : String :=
  "e49295702f7da8670778e9b95a281b72b41b31cb16afa376034b45f59a18ea3f linux-amd64-binary"

/-- A filesystem holding the running executable only. -/
def testFiles : String → Option String :=
  fun q => if q = "/opt/app/tool" then some "old binary" else none

/-- A filesystem holding the running executable and a backup left by an earlier run. -/
def staleFiles : String → Option String :=
  fun q => if q = "/opt/app/tool" then some "old binary"
    else if q = "/opt/app/.tool.old" then some "stale backup" else none

/-- The manifest of the tests with its digest in upper case. -/
def upperManifest : String :=
  "E49295702F7DA8670778E9B95A281B72B41B31CB16AFA376034B45F59A18EA3F linux-amd64-binary"

/-- A manifest with the record of the host between two records of other platforms. -/
def mixedManifest : String :=
  "0000 tool-darwin-amd64\n" ++ testManifest ++ "\n1111 tool-linux-386\n"

/-- A manifest of two artifacts; `386` occurs in the digest of the first. -/
def manifest386 : String :=
  "31fc565f36399942d13b2bdbf5bdc50d46fda5df25f54003e3862071c3569f21 tool-linux-amd64\n" ++
  "eb632fbb622a0f7aa9220c4078fc1beec49ca9b87f5a8d615d18684a86170505 tool-linux-386\n"

/-- A host `linux`/`386` facing `manifest386`; the server holds the amd64 artifact. -/
def env386 : Env :=
  { testEnv manifest386 "amd64 build 2\n" noErr noErr none with GOARCH := "386" }

/-- A manifest whose only record is the one of the amd64 artifact; `386` occurs in its
digest. -/
def manifestAmd64 : String :=
  "31fc565f36399942d13b2bdbf5bdc50d46fda5df25f54003e3862071c3569f21 tool-linux-amd64\n"

/-- A host `linux`/`386` facing `manifestAmd64`; the server holds the amd64 artifact. -/
def envAmd64Only : Env :=
  { testEnv manifestAmd64 "amd64 build 2\n" noErr noErr none with GOARCH := "386" }

/-- A manifest without a record for the host: a record of another artifact, and a line that
holds both tokens but no space. -/
def noRecordManifest : String := "hash fake\nlinux-amd64-binary\n"

/-- An environment whose server answers every request with status 404. -/
def notFoundEnv : Env :=
  { testEnv "" "" noErr noErr none with httpGet := fun _ => .ok ⟨404, "", none⟩ }

set_option maxRecDepth 100000

/-! ## The three paths are distinct -/

theorem length_filepathJoin (dir name : String) :
    dir.length + name.length ≤ (filepathJoin dir name).length + 1 := by
  unfold filepathJoin
  split
  · next h =>
    subst h
    have h1 : ".".length = 1 := rfl
    omega
  · have h1 : "/".length = 1 := rfl
    split <;> simp only [String.length_append] <;> omega

theorem length_le_dir_base (path : String) :
    path.length ≤ (filepathBase path).length + (filepathDir path).length + 1 := by
  cases path with
  | mk cs =>
    have h := List.takeWhile_append_dropWhile (fun c => c != '/') cs.reverse
    have hl := congrArg List.length h
    simp only [List.length_append, List.length_reverse] at hl
    unfold filepathBase filepathDir
    have h1 : ".".length = 1 := rfl
    have h2 : "/".length = 1 := rfl
    simp only [String.length_mk, List.length_reverse]
    split
    · next h0 => rw [h0] at hl; simp only [List.length_nil] at hl; omega
    · next c rest h0 =>
      rw [h0] at hl
      simp only [List.length_cons] at hl
      split
      · next hr => subst hr; simp only [List.length_nil] at hl; omega
      · simp only [String.length_mk, List.length_reverse]; omega

theorem filepathJoin_inj (dir a b : String) (h : filepathJoin dir a = filepathJoin dir b) :
    a = b := by
  unfold filepathJoin at h
  split at h
  · exact h
  · split at h
    · have := congrArg String.data h
      simp only [String.data_append, List.append_cancel_left_eq] at this
      exact String.ext this
    · have := congrArg String.data h
      simp only [String.data_append, List.append_cancel_left_eq] at this
      exact String.ext this

theorem executableNew_ne (executable : String) : executableNew executable ≠ executable := by
  intro h
  have h1 := length_filepathJoin (filepathDir executable) ("." ++ filepathBase executable ++ ".new")
  have h2 := length_le_dir_base executable
  have h3 := congrArg String.length h
  unfold executableNew at h3
  simp only [String.length_append] at h1
  have h4 : ".".length = 1 := rfl
  have h5 : ".new".length = 4 := rfl
  omega

theorem executableOld_ne (executable : String) : executableOld executable ≠ executable := by
  intro h
  have h1 := length_filepathJoin (filepathDir executable) ("." ++ filepathBase executable ++ ".old")
  have h2 := length_le_dir_base executable
  have h3 := congrArg String.length h
  unfold executableOld at h3
  simp only [String.length_append] at h1
  have h4 : ".".length = 1 := rfl
  have h5 : ".old".length = 4 := rfl
  omega

theorem executableNew_ne_old (executable : String) :
    executableNew executable ≠ executableOld executable := by
  intro h
  have h1 := congrArg String.data (filepathJoin_inj _ _ _ h)
  simp only [String.data_append, List.append_cancel_left_eq] at h1
  exact absurd h1 (by decide)

theorem ne_executableNew (executable : String) : executable ≠ executableNew executable :=
  fun h => executableNew_ne executable h.symm

theorem ne_executableOld (executable : String) : executable ≠ executableOld executable :=
  fun h => executableOld_ne executable h.symm

theorem executableOld_ne_new (executable : String) :
    executableOld executable ≠ executableNew executable :=
  fun h => executableNew_ne_old executable h.symm

/-! ## What each collaborator call does to the world -/

@[simp]
theorem httpGet_fst (env : Env) (url : String) (w : World) :
    (httpGet env url w).1 = env.httpGet url := rfl

@[simp]
theorem httpGet_files (env : Env) (url : String) (w : World) :
    (httpGet env url w).2.files = w.files := rfl

@[simp]
theorem httpGet_trace (env : Env) (url : String) (w : World) :
    (httpGet env url w).2.trace = w.trace ++ [.get url] := rfl

@[simp]
theorem httpGet_removes (env : Env) (url : String) (w : World) :
    (httpGet env url w).2.removes = w.removes := rfl

@[simp]
theorem httpGet_renames (env : Env) (url : String) (w : World) :
    (httpGet env url w).2.renames = w.renames := rfl

@[simp]
theorem remove_trace (env : Env) (name : String) (w : World) :
    (remove env name w).2.trace = w.trace ++ [.remove name] := by
  unfold remove; split <;> [rfl; (split <;> rfl)]

@[simp]
theorem remove_removes (env : Env) (name : String) (w : World) :
    (remove env name w).2.removes = w.removes + 1 := by
  unfold remove; split <;> [rfl; (split <;> rfl)]

@[simp]
theorem remove_renames (env : Env) (name : String) (w : World) :
    (remove env name w).2.renames = w.renames := by
  unfold remove; split <;> [rfl; (split <;> rfl)]

theorem remove_files_of_ne (env : Env) (name q : String) (w : World) (h : q ≠ name) :
    (remove env name w).2.files q = w.files q := by
  unfold remove; split
  · rfl
  · split
    · rfl
    · simp [World.put, World.record, h]

theorem remove_files_ok (env : Env) (name : String) (w : World)
    (h : env.removeErr w.removes = none) : (remove env name w).2.files name = none := by
  unfold remove; rw [h]; simp only []; split
  · next h0 => exact h0
  · simp [World.put]

theorem remove_files_failed (env : Env) (name : String) (w : World) (e : Nat)
    (h : env.removeErr w.removes = some e) : (remove env name w).2.files = w.files := by
  unfold remove; rw [h]; rfl

theorem remove_files (env : Env) (name q : String) (w : World) :
    (remove env name w).2.files q =
      if q = name ∧ env.removeErr w.removes = none then none else w.files q := by
  by_cases hq : q = name
  · subst hq
    cases h : env.removeErr w.removes with
    | none => simpa [h] using remove_files_ok env q w h
    | some e => simp [remove_files_failed env q w e h]
  · simp [hq, remove_files_of_ne env name q w hq]

@[simp]
theorem rename_trace (env : Env) (a b : String) (w : World) :
    (rename env a b w).2.trace = w.trace ++ [.rename a b] := by
  unfold rename; split <;> [rfl; (split <;> rfl)]

@[simp]
theorem rename_removes (env : Env) (a b : String) (w : World) :
    (rename env a b w).2.removes = w.removes := by
  unfold rename; split <;> [rfl; (split <;> rfl)]

@[simp]
theorem rename_renames (env : Env) (a b : String) (w : World) :
    (rename env a b w).2.renames = w.renames + 1 := by
  unfold rename; split <;> [rfl; (split <;> rfl)]

theorem rename_fst (env : Env) (a b : String) (w : World) :
    (rename env a b w).1 =
      match env.renameErr w.renames with
      | some e => some (.external e)
      | none => if w.files a = none then some (.external enoent) else none := by
  unfold rename; split
  · rfl
  · split
    · next h => simp [h]
    · next h => simp [h]

theorem rename_fst_external (env : Env) (a b : String) (w : World) (err : Err)
    (h : (rename env a b w).1 = some err) : ∃ c, err = .external c := by
  rw [rename_fst] at h
  cases h0 : env.renameErr w.renames with
  | some c => exact ⟨c, by simpa [h0] using h.symm⟩
  | none =>
    refine ⟨enoent, ?_⟩
    by_cases h1 : w.files a = none
    · simpa [h0, h1] using h.symm
    · simp [h0, h1] at h

theorem rename_files_failed (env : Env) (a b : String) (w : World)
    (h : (rename env a b w).1 ≠ none) : (rename env a b w).2.files = w.files := by
  unfold rename at h ⊢
  cases h0 : env.renameErr w.renames with
  | some e => rfl
  | none =>
    cases h1 : w.files a with
    | none => rfl
    | some c => simp [h0, h1] at h

theorem rename_files_ok (env : Env) (a b : String) (w : World)
    (h : (rename env a b w).1 = none) :
    (rename env a b w).2.files = fun q => if q = b then w.files a else if q = a then none
      else w.files q := by
  unfold rename at h ⊢
  cases h0 : env.renameErr w.renames with
  | some e => simp [h0] at h
  | none =>
    cases h1 : w.files a with
    | none => simp [h0, h1] at h
    | some c => rfl

theorem rename_files (env : Env) (a b q : String) (w : World) :
    (rename env a b w).2.files q =
      if (rename env a b w).1 = none then
        (if q = b then w.files a else if q = a then none else w.files q)
      else w.files q := by
  by_cases h : (rename env a b w).1 = none
  · rw [if_pos h, rename_files_ok env a b w h]
  · rw [if_neg h, rename_files_failed env a b w h]

@[simp]
theorem openfile_fst (env : Env) (name : String) (w : World) :
    (openfile env name w).1 = env.openfileErr.map Err.external := by
  unfold openfile; split <;> simp [*]

@[simp]
theorem openfile_trace (env : Env) (name : String) (w : World) :
    (openfile env name w).2.trace = w.trace ++ [.openfile name] := by
  unfold openfile; split <;> rfl

@[simp]
theorem openfile_removes (env : Env) (name : String) (w : World) :
    (openfile env name w).2.removes = w.removes := by
  unfold openfile; split <;> rfl

@[simp]
theorem openfile_renames (env : Env) (name : String) (w : World) :
    (openfile env name w).2.renames = w.renames := by
  unfold openfile; split <;> rfl

theorem openfile_files (env : Env) (name q : String) (w : World) :
    (openfile env name w).2.files q =
      if q = name ∧ env.openfileErr = none then some "" else w.files q := by
  unfold openfile
  cases h : env.openfileErr with
  | some e => simp [World.record]
  | none => by_cases hq : q = name <;> simp [World.put, World.record, hq]

@[simp]
theorem ioCopy_trace (env : Env) (name : String) (r : Response) (w : World) :
    (ioCopy env name r w).2.trace = w.trace := by
  unfold ioCopy; split <;> [rfl; (split <;> rfl)]

@[simp]
theorem ioCopy_removes (env : Env) (name : String) (r : Response) (w : World) :
    (ioCopy env name r w).2.removes = w.removes := by
  unfold ioCopy; split <;> [rfl; (split <;> rfl)]

@[simp]
theorem ioCopy_renames (env : Env) (name : String) (r : Response) (w : World) :
    (ioCopy env name r w).2.renames = w.renames := by
  unfold ioCopy; split <;> [rfl; (split <;> rfl)]

theorem ioCopy_fst (env : Env) (name : String) (r : Response) (w : World) :
    (ioCopy env name r w).1 =
      match env.writeErr with
      | some ne => some (.external ne.2)
      | none => r.readErr.map Err.external := by
  unfold ioCopy
  cases h : env.writeErr with
  | some ne => rfl
  | none => cases h1 : r.readErr <;> rfl

theorem ioCopy_files (env : Env) (name q : String) (r : Response) (w : World) :
    (ioCopy env name r w).2.files q =
      if q = name then
        (match env.writeErr with
         | some ne => some ⟨r.body.data.take ne.1⟩
         | none => some r.body)
      else w.files q := by
  unfold ioCopy
  cases h : env.writeErr with
  | some ne => by_cases hq : q = name <;> simp [World.put, hq]
  | none => cases h1 : r.readErr <;> by_cases hq : q = name <;> simp [World.put, hq]

@[simp]
theorem restart_fst (env : Env) (binary : String) (w : World) :
    (restart env binary w).1 = env.restartErr.map Err.external := rfl

theorem restart_fst_external (env : Env) (binary : String) (w : World) (err : Err)
    (h : (restart env binary w).1 = some err) : ∃ c, err = .external c := by
  rw [restart_fst] at h
  cases h0 : env.restartErr with
  | some c => exact ⟨c, by simpa [h0] using h.symm⟩
  | none => simp [h0] at h

@[simp]
theorem restart_files (env : Env) (binary : String) (w : World) :
    (restart env binary w).2.files = w.files := rfl

@[simp]
theorem restart_trace (env : Env) (binary : String) (w : World) :
    (restart env binary w).2.trace = w.trace ++ [.restart binary] := rfl

@[simp]
theorem restart_removes (env : Env) (binary : String) (w : World) :
    (restart env binary w).2.removes = w.removes := rfl

@[simp]
theorem restart_renames (env : Env) (binary : String) (w : World) :
    (restart env binary w).2.renames = w.renames := rfl

/-! ## The stages of `Check` -/

theorem Check_eq (env : Env) (version cdn : String) (w : World) :
    Check env version cdn w =
      if stringsTrimSuffix cdn "/" = "" then (some .errNoCdn, w) else
      match env.osExecutable with
      | .error e => (some (.external e), w)
      | .ok executableOrigin =>
      match env.evalSymlinks executableOrigin with
      | .error e => (some (.external e), w)
      | .ok executable => resolveAndFetch env version (stringsTrimSuffix cdn "/") executable w :=
  rfl

theorem swapAndRestart_trace (env : Env) (executable : String) (w : World) :
    .rename executable (executableOld executable) ∈ (swapAndRestart env executable w).2.trace := by
  unfold swapAndRestart
  dsimp only
  repeat' split
  all_goals simp

theorem swapAndRestart_fetched (env : Env) (executable : String) (w : World) :
    fetched (swapAndRestart env executable w).2.trace = fetched w.trace := by
  unfold swapAndRestart
  dsimp only
  repeat' split
  all_goals simp [fetched, List.filterMap_append]

theorem fetchAndVerify_fetched (env : Env) (cdn executable sum file : String) (w : World) :
    fetched (fetchAndVerify env cdn executable sum file w).2.trace =
      fetched w.trace ++ [cdn ++ "/" ++ file] := by
  unfold fetchAndVerify
  dsimp only
  repeat' split
  all_goals try rw [swapAndRestart_fetched]
  all_goals simp [fetched, List.filterMap_append]

theorem fetchAndVerify_frame (env : Env) (cdn executable sum file q : String) (w : World)
    (hearly : ∀ e ∈ (fetchAndVerify env cdn executable sum file w).2.trace, e.isRename = false)
    (hq : q ≠ executableNew executable ∨
      ∀ e ∈ (fetchAndVerify env cdn executable sum file w).2.trace,
        e ≠ .openfile (executableNew executable)) :
    (fetchAndVerify env cdn executable sum file w).2.files q = w.files q := by
  revert hearly hq
  unfold fetchAndVerify
  dsimp only
  repeat' split
  all_goals intro hearly hq
  all_goals try (exfalso; exact absurd (hearly _ (swapAndRestart_trace _ _ _)) (by simp [Event.isRename]))
  all_goals
    rcases hq with hq | hq
    · simp [remove_files, openfile_files, ioCopy_files, hq]
    · first
        | (simp; done)
        | (refine absurd rfl (hq (.openfile (executableNew executable)) ?_); simp)

theorem resolveAndFetch_frame (env : Env) (version cdn executable q : String) (w : World)
    (hearly : ∀ e ∈ (resolveAndFetch env version cdn executable w).2.trace, e.isRename = false)
    (hq : q ≠ executableNew executable ∨
      ∀ e ∈ (resolveAndFetch env version cdn executable w).2.trace,
        e ≠ .openfile (executableNew executable)) :
    (resolveAndFetch env version cdn executable w).2.files q =
      (remove env (executableOld executable) w).2.files q := by
  revert hearly hq
  unfold resolveAndFetch
  dsimp only
  repeat' split
  all_goals intro hearly hq
  all_goals try rfl
  rw [fetchAndVerify_frame _ _ _ _ _ _ _ hearly hq]
  rfl

/-! ## The loop over the manifest -/

/-- The loop passes over the lines that do not hold both tokens or hold no space. -/
theorem scanSignatures_skip (lower : String → String) (goos goarch : String)
    (pre rest : List String)
    (h : ∀ l ∈ pre, ¬(stringsContains (stringsToLower lower l) goos = true ∧
      stringsContains l goarch = true ∧ (stringsSplitN2 l).length = 2)) :
    scanSignatures lower goos goarch (pre ++ rest) = scanSignatures lower goos goarch rest := by
  induction pre with
  | nil => rfl
  | cons text pre ih =>
    have ih := ih (fun l hl => h l (List.mem_cons_of_mem _ hl))
    have h1 := h text (List.mem_cons_self _ _)
    simp only [List.cons_append, scanSignatures]
    split
    · next hc =>
      simp only [Bool.and_eq_true] at hc
      split
      · next sum file hs => exact absurd ⟨hc.1, hc.2, by rw [hs]; rfl⟩ h1
      · exact ih
    · exact ih

/-- On lines that are all ASCII the loop does not depend on the case tables. -/
theorem scanSignatures_ascii (lower lower2 : String → String) (goos goarch : String)
    (lines : List String) (h : ∀ l ∈ lines, isASCII l = true) :
    scanSignatures lower goos goarch lines = scanSignatures lower2 goos goarch lines := by
  induction lines with
  | nil => rfl
  | cons text rest ih =>
    have h1 := h text (List.mem_cons_self _ _)
    have ih := ih (fun l hl => h l (List.mem_cons_of_mem _ hl))
    simp only [scanSignatures, stringsToLower, h1, if_true, ih]

/-! ## The environment of the tests -/

/-- The loop over the manifest of the tests ends with its only record. -/
theorem scan_testManifest :
    scanSignatures notConsulted "linux" "amd64" (bufioScanLines testManifest) =
      ("e49295702f7da8670778e9b95a281b72b41b31cb16afa376034b45f59a18ea3f",
       "linux-amd64-binary") := by
  decide

/-- The environment of the tests satisfies `Streams`, whatever the artifact served. -/
theorem streams_testEnv (artifact : String) (removeErr renameErr : Nat → Option Nat)
    (restartErr : Option Nat) :
    Streams (testEnv testManifest artifact removeErr renameErr restartErr) "1" "http://cdn/"
      "/opt/app/tool" "e49295702f7da8670778e9b95a281b72b41b31cb16afa376034b45f59a18ea3f"
      "linux-amd64-binary" artifact := by
  refine ⟨by decide, ⟨"/opt/app/tool", rfl, rfl⟩, ⟨"2", by rfl, by decide⟩,
    ⟨testManifest, by rfl, scan_testManifest⟩, by decide, by decide, by rfl, rfl, rfl⟩

/-- The environment of the tests with the upper-case manifest satisfies `Streams`. -/
theorem streams_upperManifest :
    Streams (testEnv upperManifest "bananas\n" noErr noErr none) "1" "http://cdn/"
      "/opt/app/tool" "E49295702F7DA8670778E9B95A281B72B41B31CB16AFA376034B45F59A18EA3F"
      "linux-amd64-binary" "bananas\n" := by
  refine ⟨by decide, ⟨"/opt/app/tool", rfl, rfl⟩, ⟨"2", by rfl, by decide⟩,
    ⟨upperManifest, by rfl, by decide⟩, by decide, by decide, by rfl, rfl, rfl⟩

/-- The digest of the artifact of the tests. -/
theorem sha256_bananas :
    hexEncode (sha256 "bananas\n") =
      "e49295702f7da8670778e9b95a281b72b41b31cb16afa376034b45f59a18ea3f" := by
  decide

/-- The digest of the artifact of the tests is not that of `baddata`. -/
theorem sha256_baddata :
    hexEncode (sha256 "baddata") ≠
      "e49295702f7da8670778e9b95a281b72b41b31cb16afa376034b45f59a18ea3f" := by
  decide

/-! ## C1: failure of the restart -/

/-- C1: when the run reaches the restart (the digest matched and both renames succeeded) and
`restart` returns the error `e`, while the removal and the rename of the rollback succeed (the
second call of `remove` and the third call of `rename` of the run), `Check` returns `e`, the
current executable path holds the original bytes again, and neither the staging file nor the
backup file is left. -/
theorem check_restart_failed (env : Env) (version cdn executable d f b orig : String)
    (files : String → Option String) (e : Nat)
    (hs : Streams env version cdn executable d f b)
    (hsum : hexEncode (sha256 b) = d)
    (horig : files executable = some orig)
    (hr0 : env.renameErr 0 = none) (hr1 : env.renameErr 1 = none)
    (hrestart : env.restartErr = some e)
    (hremove : env.removeErr 1 = none) (hr2 : env.renameErr 2 = none) :
    (Check env version cdn (World.start files)).1 = some (.external e) ∧
    (Check env version cdn (World.start files)).2.files executable = some orig ∧
    (Check env version cdn (World.start files)).2.files (executableNew executable) = none ∧
    (Check env version cdn (World.start files)).2.files (executableOld executable) = none := by
  obtain ⟨hcdn, ⟨origin, ho, hsym⟩, ⟨r, hv, hne⟩, ⟨m, hm, hscan⟩, hf, hd, hb, hopen, hwrite⟩ := hs
  simp [Check, hcdn, ho, hsym, hv, hne, hm, hscan, hf, hd, hb, hopen, hwrite, hsum, horig, hr0,
    hr1, hr2, hremove, hrestart, rename_fst, rename_files, remove_files, openfile_files,
    ioCopy_fst, ioCopy_files, World.start, executableNew_ne, executableOld_ne,
    executableNew_ne_old, ne_executableNew, ne_executableOld, executableOld_ne_new]

theorem check_restart_failed_witness :
    Streams (testEnv testManifest "bananas\n" noErr noErr (some 8)) "1" "http://cdn/"
      "/opt/app/tool" "e49295702f7da8670778e9b95a281b72b41b31cb16afa376034b45f59a18ea3f"
      "linux-amd64-binary" "bananas\n" ∧
    (Check (testEnv testManifest "bananas\n" noErr noErr (some 8)) "1" "http://cdn/"
      (World.start testFiles)).1 = some (.external 8) ∧
    (Check (testEnv testManifest "bananas\n" noErr noErr (some 8)) "1" "http://cdn/"
      (World.start testFiles)).2.files "/opt/app/tool" = some "old binary" ∧
    (Check (testEnv testManifest "bananas\n" noErr noErr (some 8)) "1" "http://cdn/"
      (World.start testFiles)).2.files (executableNew "/opt/app/tool") = none ∧
    (Check (testEnv testManifest "bananas\n" noErr noErr (some 8)) "1" "http://cdn/"
      (World.start testFiles)).2.files (executableOld "/opt/app/tool") = none :=
  ⟨streams_testEnv _ _ _ _,
   check_restart_failed (testEnv testManifest "bananas\n" noErr noErr (some 8)) "1" "http://cdn/"
     "/opt/app/tool" _ "linux-amd64-binary" "bananas\n" "old binary" testFiles 8
     (streams_testEnv _ _ _ _) sha256_bananas rfl rfl rfl rfl rfl rfl⟩

/-! ## C2: failure of the second rename -/

/-- C2, amended: when the rename of the executable onto the backup path succeeds and the rename of
the staging file onto the executable path fails with `e`, `Check` returns `e`; it calls `remove`
on the staging path and on the executable path, then renames the backup back, and never calls
`restart`.  When that last rename succeeds, the executable path holds the original bytes and no
backup file exists; no staging file exists either provided its removal (the second call of
`remove`) succeeded. -/
theorem check_second_rename_failed (env : Env) (version cdn executable d f b orig : String)
    (files : String → Option String) (e : Nat)
    (hs : Streams env version cdn executable d f b)
    (hsum : hexEncode (sha256 b) = d)
    (horig : files executable = some orig)
    (hr0 : env.renameErr 0 = none) (hr1 : env.renameErr 1 = some e) :
    (Check env version cdn (World.start files)).1 = some (.external e) ∧
    (Check env version cdn (World.start files)).2.trace =
      [.remove (executableOld executable),
       .get (stringsTrimSuffix cdn "/" ++ "/version"),
       .get (stringsTrimSuffix cdn "/" ++ "/sha256sums"),
       .get (stringsTrimSuffix cdn "/" ++ "/" ++ f),
       .openfile (executableNew executable),
       .rename executable (executableOld executable),
       .rename (executableNew executable) executable,
       .remove (executableNew executable),
       .remove executable,
       .rename (executableOld executable) executable] ∧
    (env.renameErr 2 = none →
      (Check env version cdn (World.start files)).2.files executable = some orig ∧
      (Check env version cdn (World.start files)).2.files (executableOld executable) = none ∧
      (env.removeErr 1 = none →
        (Check env version cdn (World.start files)).2.files (executableNew executable) = none)) := by
  obtain ⟨hcdn, ⟨origin, ho, hsym⟩, ⟨r, hv, hne⟩, ⟨m, hm, hscan⟩, hf, hd, hb, hopen, hwrite⟩ := hs
  refine ⟨?_, ?_, ?_⟩
  · simp [Check, hcdn, ho, hsym, hv, hne, hm, hscan, hf, hd, hb, hopen, hwrite, hsum, horig, hr0,
      hr1, rename_fst, rename_files, remove_files, openfile_files, ioCopy_fst, ioCopy_files,
      World.start, executableNew_ne, executableOld_ne, executableNew_ne_old, ne_executableNew,
      ne_executableOld, executableOld_ne_new]
  · simp [Check, hcdn, ho, hsym, hv, hne, hm, hscan, hf, hd, hb, hopen, hwrite, hsum, horig, hr0,
      hr1, rename_fst, rename_files, remove_files, openfile_files, ioCopy_fst, ioCopy_files,
      World.start, executableNew_ne, executableOld_ne, executableNew_ne_old, ne_executableNew,
      ne_executableOld, executableOld_ne_new]
  · intro hr2
    simp [Check, hcdn, ho, hsym, hv, hne, hm, hscan, hf, hd, hb, hopen, hwrite, hsum, horig, hr0,
      hr1, hr2, rename_fst, rename_files, remove_files, openfile_files, ioCopy_fst, ioCopy_files,
      World.start, executableNew_ne, executableOld_ne, executableNew_ne_old, ne_executableNew,
      ne_executableOld, executableOld_ne_new]

theorem check_second_rename_failed_witness :
    Streams (testEnv testManifest "bananas\n" noErr (errAt 1 5) none) "1" "http://cdn/"
      "/opt/app/tool" "e49295702f7da8670778e9b95a281b72b41b31cb16afa376034b45f59a18ea3f"
      "linux-amd64-binary" "bananas\n" ∧
    (Check (testEnv testManifest "bananas\n" noErr (errAt 1 5) none) "1" "http://cdn/"
      (World.start testFiles)).1 = some (.external 5) ∧
    (Check (testEnv testManifest "bananas\n" noErr (errAt 1 5) none) "1" "http://cdn/"
      (World.start testFiles)).2.files "/opt/app/tool" = some "old binary" :=
  ⟨streams_testEnv _ _ _ _,
   (check_second_rename_failed (testEnv testManifest "bananas\n" noErr (errAt 1 5) none) "1"
     "http://cdn/" "/opt/app/tool" _ "linux-amd64-binary" "bananas\n" "old binary" testFiles 5
     (streams_testEnv _ _ _ _) sha256_bananas rfl rfl rfl).1,
   ((check_second_rename_failed (testEnv testManifest "bananas\n" noErr (errAt 1 5) none) "1"
     "http://cdn/" "/opt/app/tool" _ "linux-amd64-binary" "bananas\n" "old binary" testFiles 5
     (streams_testEnv _ _ _ _) sha256_bananas rfl rfl rfl).2.2 rfl).1⟩

/-- C2 fails as stated: the second rename fails with code 5, the backup is renamed back, yet
the removal of the staging file failed (code 13) and the staging file is still there. -/
theorem check_second_rename_failed_counterexample :
    Streams (testEnv testManifest "bananas\n" (errAt 1 13) (errAt 1 5) none) "1" "http://cdn/"
      "/opt/app/tool" "e49295702f7da8670778e9b95a281b72b41b31cb16afa376034b45f59a18ea3f"
      "linux-amd64-binary" "bananas\n" ∧
    (Check (testEnv testManifest "bananas\n" (errAt 1 13) (errAt 1 5) none) "1" "http://cdn/"
      (World.start testFiles)).1 = some (.external 5) ∧
    (Check (testEnv testManifest "bananas\n" (errAt 1 13) (errAt 1 5) none) "1" "http://cdn/"
      (World.start testFiles)).2.files "/opt/app/tool" = some "old binary" ∧
    (Check (testEnv testManifest "bananas\n" (errAt 1 13) (errAt 1 5) none) "1" "http://cdn/"
      (World.start testFiles)).2.files (executableNew "/opt/app/tool") = some "bananas\n" :=
  ⟨streams_testEnv _ _ _ _, by decide, by decide, by decide⟩

/-! ## C3: failure of the first rename -/

/-- C3, amended: when the first rename of the run, of the executable onto the backup path,
fails with `e`, `Check` returns `e`, the file at the executable path is as before the run, and
the only call that follows is `remove` on the staging path: no second rename, no restart.  The
staging file is gone provided that removal (the second call of `remove`) succeeded, and no
backup file is present provided the removal of the stale backup at the start of the run (the
first call of `remove`) succeeded or there was none. -/
theorem check_first_rename_failed (env : Env) (version cdn executable d f b : String)
    (files : String → Option String) (e : Err)
    (hs : Streams env version cdn executable d f b)
    (hsum : hexEncode (sha256 b) = d)
    (hfail : firstRename env executable files = some e) :
    (Check env version cdn (World.start files)).1 = some e ∧
    (Check env version cdn (World.start files)).2.files executable = files executable ∧
    (Check env version cdn (World.start files)).2.trace =
      [.remove (executableOld executable),
       .get (stringsTrimSuffix cdn "/" ++ "/version"),
       .get (stringsTrimSuffix cdn "/" ++ "/sha256sums"),
       .get (stringsTrimSuffix cdn "/" ++ "/" ++ f),
       .openfile (executableNew executable),
       .rename executable (executableOld executable),
       .remove (executableNew executable)] ∧
    (env.removeErr 1 = none →
      (Check env version cdn (World.start files)).2.files (executableNew executable) = none) ∧
    (env.removeErr 0 = none ∨ files (executableOld executable) = none →
      (Check env version cdn (World.start files)).2.files (executableOld executable) = none) := by
  obtain ⟨hcdn, ⟨origin, ho, hsym⟩, ⟨r, hv, hne⟩, ⟨m, hm, hscan⟩, hf, hd, hb, hopen, hwrite⟩ := hs
  unfold firstRename at hfail
  rw [rename_fst] at hfail
  simp only [World.start] at hfail
  cases h0 : env.renameErr 0 with
  | some c =>
    simp only [h0] at hfail
    refine ⟨?_, ?_, ?_, ?_, ?_⟩
    · simpa [Check, hcdn, ho, hsym, hv, hne, hm, hscan, hf, hd, hb, hopen, hwrite, hsum, h0,
        rename_fst, rename_files, remove_files, openfile_files, ioCopy_fst, ioCopy_files,
        World.start, executableNew_ne, executableOld_ne, executableNew_ne_old, ne_executableNew,
        ne_executableOld, executableOld_ne_new] using hfail
    · simp [Check, hcdn, ho, hsym, hv, hne, hm, hscan, hf, hd, hb, hopen, hwrite, hsum, h0,
        rename_fst, rename_files, remove_files, openfile_files, ioCopy_fst, ioCopy_files,
        World.start, executableNew_ne, executableOld_ne, executableNew_ne_old, ne_executableNew,
        ne_executableOld, executableOld_ne_new]
    · simp [Check, hcdn, ho, hsym, hv, hne, hm, hscan, hf, hd, hb, hopen, hwrite, hsum, h0,
        rename_fst, rename_files, remove_files, openfile_files, ioCopy_fst, ioCopy_files,
        World.start, executableNew_ne, executableOld_ne, executableNew_ne_old, ne_executableNew,
        ne_executableOld, executableOld_ne_new]
    · intro h1
      simp [Check, hcdn, ho, hsym, hv, hne, hm, hscan, hf, hd, hb, hopen, hwrite, hsum, h0, h1,
        rename_fst, rename_files, remove_files, openfile_files, ioCopy_fst, ioCopy_files,
        World.start, executableNew_ne, executableOld_ne, executableNew_ne_old, ne_executableNew,
        ne_executableOld, executableOld_ne_new]
    · intro h1
      rcases h1 with h1 | h1 <;>
      simp [Check, hcdn, ho, hsym, hv, hne, hm, hscan, hf, hd, hb, hopen, hwrite, hsum, h0, h1,
        rename_fst, rename_files, remove_files, openfile_files, ioCopy_fst, ioCopy_files,
        World.start, executableNew_ne, executableOld_ne, executableNew_ne_old, ne_executableNew,
        ne_executableOld, executableOld_ne_new]
  | none =>
    simp only [h0] at hfail
    have h2 : files executable = none := by
      by_contra h2
      simp [h2] at hfail
    simp only [h2, if_true] at hfail
    refine ⟨?_, ?_, ?_, ?_, ?_⟩
    · simpa [Check, hcdn, ho, hsym, hv, hne, hm, hscan, hf, hd, hb, hopen, hwrite, hsum, h0, h2,
        rename_fst, rename_files, remove_files, openfile_files, ioCopy_fst, ioCopy_files,
        World.start, executableNew_ne, executableOld_ne, executableNew_ne_old, ne_executableNew,
        ne_executableOld, executableOld_ne_new] using hfail
    · simp [Check, hcdn, ho, hsym, hv, hne, hm, hscan, hf, hd, hb, hopen, hwrite, hsum, h0, h2,
        rename_fst, rename_files, remove_files, openfile_files, ioCopy_fst, ioCopy_files,
        World.start, executableNew_ne, executableOld_ne, executableNew_ne_old, ne_executableNew,
        ne_executableOld, executableOld_ne_new]
    · simp [Check, hcdn, ho, hsym, hv, hne, hm, hscan, hf, hd, hb, hopen, hwrite, hsum, h0, h2,
        rename_fst, rename_files, remove_files, openfile_files, ioCopy_fst, ioCopy_files,
        World.start, executableNew_ne, executableOld_ne, executableNew_ne_old, ne_executableNew,
        ne_executableOld, executableOld_ne_new]
    · intro h1
      simp [Check, hcdn, ho, hsym, hv, hne, hm, hscan, hf, hd, hb, hopen, hwrite, hsum, h0, h1,
        h2, rename_fst, rename_files, remove_files, openfile_files, ioCopy_fst, ioCopy_files,
        World.start, executableNew_ne, executableOld_ne, executableNew_ne_old, ne_executableNew,
        ne_executableOld, executableOld_ne_new]
    · intro h1
      rcases h1 with h1 | h1 <;>
      simp [Check, hcdn, ho, hsym, hv, hne, hm, hscan, hf, hd, hb, hopen, hwrite, hsum, h0, h1,
        h2, rename_fst, rename_files, remove_files, openfile_files, ioCopy_fst, ioCopy_files,
        World.start, executableNew_ne, executableOld_ne, executableNew_ne_old, ne_executableNew,
        ne_executableOld, executableOld_ne_new]

theorem check_first_rename_failed_witness :
    firstRename (testEnv testManifest "bananas\n" noErr (errAt 0 5) none) "/opt/app/tool"
      staleFiles = some (.external 5) ∧
    (Check (testEnv testManifest "bananas\n" noErr (errAt 0 5) none) "1" "http://cdn/"
      (World.start staleFiles)).1 = some (.external 5) ∧
    (Check (testEnv testManifest "bananas\n" noErr (errAt 0 5) none) "1" "http://cdn/"
      (World.start staleFiles)).2.files "/opt/app/tool" = staleFiles "/opt/app/tool" ∧
    (Check (testEnv testManifest "bananas\n" noErr (errAt 0 5) none) "1" "http://cdn/"
      (World.start staleFiles)).2.files (executableNew "/opt/app/tool") = none ∧
    (Check (testEnv testManifest "bananas\n" noErr (errAt 0 5) none) "1" "http://cdn/"
      (World.start staleFiles)).2.files (executableOld "/opt/app/tool") = none :=
  have h := check_first_rename_failed (testEnv testManifest "bananas\n" noErr (errAt 0 5) none)
    "1" "http://cdn/" "/opt/app/tool" _ "linux-amd64-binary" "bananas\n" staleFiles
    (.external 5) (streams_testEnv _ _ _ _) sha256_bananas (by decide)
  ⟨by decide, h.1, h.2.1, h.2.2.2.1 rfl, h.2.2.2.2 (Or.inl rfl)⟩

/-- C3 fails as stated: the first rename fails with code 5, and the backup a previous run left is
still present afterwards, its removal at the start of the run having failed (code 13). -/
theorem check_first_rename_failed_counterexample :
    Streams (testEnv testManifest "bananas\n" (errAt 0 13) (errAt 0 5) none) "1" "http://cdn/"
      "/opt/app/tool" "e49295702f7da8670778e9b95a281b72b41b31cb16afa376034b45f59a18ea3f"
      "linux-amd64-binary" "bananas\n" ∧
    firstRename (testEnv testManifest "bananas\n" (errAt 0 13) (errAt 0 5) none) "/opt/app/tool"
      staleFiles = some (.external 5) ∧
    (Check (testEnv testManifest "bananas\n" (errAt 0 13) (errAt 0 5) none) "1" "http://cdn/"
      (World.start staleFiles)).1 = some (.external 5) ∧
    (Check (testEnv testManifest "bananas\n" (errAt 0 13) (errAt 0 5) none) "1" "http://cdn/"
      (World.start staleFiles)).2.files (executableOld "/opt/app/tool") = some "stale backup" :=
  ⟨streams_testEnv _ _ _ _, by decide, by decide, by decide⟩

/-! ## C4: digest mismatch -/

/-- C4, amended: when the artifact body `b` is written to the staging file in full and the
expected digest `d` of the selected record differs from the lower-case hexadecimal SHA-256 of
`b`, `Check` returns `errBadSum`, the only call that follows is `remove` on the staging path (no
rename, no restart), and the file at the executable path is unchanged.  The staging file is gone
provided that removal (the second call of `remove`) succeeded. -/
theorem check_bad_sum (env : Env) (version cdn executable d f b : String)
    (files : String → Option String)
    (hs : Streams env version cdn executable d f b)
    (hsum : hexEncode (sha256 b) ≠ d) :
    (Check env version cdn (World.start files)).1 = some .errBadSum ∧
    (Check env version cdn (World.start files)).2.trace =
      [.remove (executableOld executable),
       .get (stringsTrimSuffix cdn "/" ++ "/version"),
       .get (stringsTrimSuffix cdn "/" ++ "/sha256sums"),
       .get (stringsTrimSuffix cdn "/" ++ "/" ++ f),
       .openfile (executableNew executable),
       .remove (executableNew executable)] ∧
    (Check env version cdn (World.start files)).2.files executable = files executable ∧
    (env.removeErr 1 = none →
      (Check env version cdn (World.start files)).2.files (executableNew executable) = none) := by
  obtain ⟨hcdn, ⟨origin, ho, hsym⟩, ⟨r, hv, hne⟩, ⟨m, hm, hscan⟩, hf, hd, hb, hopen, hwrite⟩ := hs
  refine ⟨?_, ?_, ?_, ?_⟩
  · simp [Check, hcdn, ho, hsym, hv, hne, hm, hscan, hf, hd, hb, hopen, hwrite, hsum,
      ioCopy_fst]
  · simp [Check, hcdn, ho, hsym, hv, hne, hm, hscan, hf, hd, hb, hopen, hwrite, hsum,
      ioCopy_fst, World.start]
  · simp [Check, hcdn, ho, hsym, hv, hne, hm, hscan, hf, hd, hb, hopen, hwrite, hsum,
      ioCopy_fst, remove_files, openfile_files, ioCopy_files, World.start, ne_executableNew,
      ne_executableOld]
  · intro h1
    simp [Check, hcdn, ho, hsym, hv, hne, hm, hscan, hf, hd, hb, hopen, hwrite, hsum, h1,
      ioCopy_fst, remove_files, openfile_files, ioCopy_files, World.start]

theorem check_bad_sum_witness :
    hexEncode (sha256 "baddata") ≠
      "e49295702f7da8670778e9b95a281b72b41b31cb16afa376034b45f59a18ea3f" ∧
    (Check (testEnv testManifest "baddata" noErr noErr none) "1" "http://cdn/"
      (World.start testFiles)).1 = some .errBadSum ∧
    (Check (testEnv testManifest "baddata" noErr noErr none) "1" "http://cdn/"
      (World.start testFiles)).2.files "/opt/app/tool" = testFiles "/opt/app/tool" ∧
    (Check (testEnv testManifest "baddata" noErr noErr none) "1" "http://cdn/"
      (World.start testFiles)).2.files (executableNew "/opt/app/tool") = none :=
  have h := check_bad_sum (testEnv testManifest "baddata" noErr noErr none) "1" "http://cdn/"
    "/opt/app/tool" _ "linux-amd64-binary" "baddata" testFiles (streams_testEnv _ _ _ _)
    sha256_baddata
  ⟨sha256_baddata, h.1, h.2.2.1, h.2.2.2 rfl⟩

/-- C4 fails as stated: the digest of `baddata` differs from the expected one and `Check`
returns `errBadSum`, yet the removal of the staging file failed (code 13) and the staging file is
left on disk. -/
theorem check_bad_sum_counterexample :
    Streams (testEnv testManifest "baddata" (errAt 1 13) noErr none) "1" "http://cdn/"
      "/opt/app/tool" "e49295702f7da8670778e9b95a281b72b41b31cb16afa376034b45f59a18ea3f"
      "linux-amd64-binary" "baddata" ∧
    hexEncode (sha256 "baddata") ≠
      "e49295702f7da8670778e9b95a281b72b41b31cb16afa376034b45f59a18ea3f" ∧
    (Check (testEnv testManifest "baddata" (errAt 1 13) noErr none) "1" "http://cdn/"
      (World.start testFiles)).1 = some .errBadSum ∧
    (Check (testEnv testManifest "baddata" (errAt 1 13) noErr none) "1" "http://cdn/"
      (World.start testFiles)).2.files (executableNew "/opt/app/tool") = some "baddata" :=
  ⟨streams_testEnv _ _ _ _, by decide, by decide, by decide⟩

/-! ## C5: selection of the artifact -/

/-- C5, amended: the record `Check` selects is the first line, in the order the scanner
delivers them, whose whole text holds the OS token once lower-cased by `strings.ToLower` and
the architecture token as it is, and which holds a space: the lines before it that miss a token
or hold no space are passed over and the lines after it are not looked at.  The expected digest
is the text before its first space and the artifact name the text after it.  When both are
non-empty the run fetches the version, the manifest and the artifact under that name, and
nothing else; when one of them is empty `Check` returns `errNoMatch` and fetches no artifact. -/
theorem check_selects_first_line (env : Env) (version cdn executable r m : String)
    (pre post : List String) (line sum file : String) (files : String → Option String)
    (hcdn : stringsTrimSuffix cdn "/" ≠ "")
    (hexe : ∃ origin, env.osExecutable = .ok origin ∧ env.evalSymlinks origin = .ok executable)
    (hv : env.httpGet (stringsTrimSuffix cdn "/" ++ "/version") = .ok ⟨200, r, none⟩)
    (hne : r ≠ version)
    (hm : env.httpGet (stringsTrimSuffix cdn "/" ++ "/sha256sums") = .ok ⟨200, m, none⟩)
    (hlines : bufioScanLines m = pre ++ line :: post)
    (hpre : ∀ l ∈ pre, ¬(stringsContains (stringsToLower env.unicodeToLower l) env.GOOS = true ∧
      stringsContains l env.GOARCH = true ∧ (stringsSplitN2 l).length = 2))
    (hos : stringsContains (stringsToLower env.unicodeToLower line) env.GOOS = true)
    (harch : stringsContains line env.GOARCH = true)
    (hsplit : stringsSplitN2 line = [sum, file]) :
    scanSignatures env.unicodeToLower env.GOOS env.GOARCH (bufioScanLines m) = (sum, file) ∧
    (sum ≠ "" → file ≠ "" →
      fetched (Check env version cdn (World.start files)).2.trace =
        [stringsTrimSuffix cdn "/" ++ "/version", stringsTrimSuffix cdn "/" ++ "/sha256sums",
         stringsTrimSuffix cdn "/" ++ "/" ++ file]) ∧
    (sum = "" ∨ file = "" →
      (Check env version cdn (World.start files)).1 = some .errNoMatch ∧
      fetched (Check env version cdn (World.start files)).2.trace =
        [stringsTrimSuffix cdn "/" ++ "/version",
         stringsTrimSuffix cdn "/" ++ "/sha256sums"]) := by
  obtain ⟨origin, ho, hsym⟩ := hexe
  have hscan : scanSignatures env.unicodeToLower env.GOOS env.GOARCH (bufioScanLines m) =
      (sum, file) := by
    rw [hlines, scanSignatures_skip _ _ _ _ _ hpre]
    simp [scanSignatures, hos, harch, hsplit]
  refine ⟨hscan, ?_, ?_⟩
  · intro hsum hfile
    rw [Check_eq]
    simp only [hcdn, ho, hsym, if_false]
    unfold resolveAndFetch
    simp only [hv, hne, hm, hscan, hsum, hfile, httpGet_fst, ne_eq, not_true_eq_false, if_false,
      or_self, fetchAndVerify_fetched]
    simp [fetched, List.filterMap_append, World.start]
  · intro hempty
    have hempty2 : file = "" ∨ sum = "" := hempty.symm
    simp [Check, hcdn, ho, hsym, hv, hne, hm, hscan, hempty2, fetched, List.filterMap_append,
      World.start]

theorem check_selects_first_line_witness :
    bufioScanLines mixedManifest =
      ["0000 tool-darwin-amd64"] ++ testManifest :: ["1111 tool-linux-386"] ∧
    scanSignatures notConsulted "linux" "amd64" (bufioScanLines mixedManifest) =
      ("e49295702f7da8670778e9b95a281b72b41b31cb16afa376034b45f59a18ea3f",
       "linux-amd64-binary") ∧
    fetched (Check (testEnv mixedManifest "bananas\n" noErr noErr none) "1" "http://cdn/"
      (World.start testFiles)).2.trace =
      [stringsTrimSuffix "http://cdn/" "/" ++ "/version",
       stringsTrimSuffix "http://cdn/" "/" ++ "/sha256sums",
       stringsTrimSuffix "http://cdn/" "/" ++ "/" ++ "linux-amd64-binary"] :=
  have h := check_selects_first_line (testEnv mixedManifest "bananas\n" noErr noErr none) "1"
    "http://cdn/" "/opt/app/tool" "2" mixedManifest ["0000 tool-darwin-amd64"]
    ["1111 tool-linux-386"] testManifest
    "e49295702f7da8670778e9b95a281b72b41b31cb16afa376034b45f59a18ea3f" "linux-amd64-binary"
    testFiles (by decide) ⟨"/opt/app/tool", rfl, rfl⟩ (by rfl) (by decide) (by rfl) (by decide)
    (by decide) (by decide) (by decide) (by decide)
  ⟨by decide, h.1, h.2.1 (by decide) (by decide)⟩

/-- C5 fails as stated: on a host `linux`/`386` the first record whose filename holds both
tokens is the one of `tool-linux-386`, yet the loop of `Check` ends on the record of
`tool-linux-amd64`, whose digest holds `386`, and that artifact is the one fetched. -/
theorem check_selects_counterexample :
    specSelect notConsulted "linux" "386" manifest386 =
      some ("eb632fbb622a0f7aa9220c4078fc1beec49ca9b87f5a8d615d18684a86170505",
        "tool-linux-386") ∧
    scanSignatures env386.unicodeToLower env386.GOOS env386.GOARCH
        (bufioScanLines manifest386) =
      ("31fc565f36399942d13b2bdbf5bdc50d46fda5df25f54003e3862071c3569f21",
        "tool-linux-amd64") ∧
    fetched (Check env386 "1" "http://cdn/" (World.start testFiles)).2.trace =
      ["http://cdn/version", "http://cdn/sha256sums", "http://cdn/tool-linux-amd64"] := by
  decide

/-! ## C6: comparison of the digests -/

/-- C6, amended: the computed digest is compared with the expected digest `d` by string
equality, letter case included: once the artifact body `b` is written in full, `Check` returns
`errBadSum` exactly when `d` is not the lower-case hexadecimal SHA-256 of `b`.  Verification
succeeds for that rendering and for no other, an upper-case rendering included. -/
theorem check_digest_exact (env : Env) (version cdn executable d f b : String)
    (files : String → Option String)
    (hs : Streams env version cdn executable d f b) :
    (Check env version cdn (World.start files)).1 = some .errBadSum ↔
      hexEncode (sha256 b) ≠ d := by
  obtain ⟨hcdn, ⟨origin, ho, hsym⟩, ⟨r, hv, hne⟩, ⟨m, hm, hscan⟩, hf, hd, hb, hopen, hwrite⟩ := hs
  by_cases hsum : hexEncode (sha256 b) = d
  · simp only [hsum, ne_eq, not_true_eq_false, iff_false]
    simp only [Check, hcdn, ho, hsym, hv, hne, hm, hscan, hf, hd, hb, hopen, hwrite, hsum,
      ioCopy_fst, httpGet_fst, openfile_fst, ne_eq, not_true_eq_false, if_false, or_self,
      Option.map_none']
    split
    · next err h =>
      obtain ⟨c, rfl⟩ := rename_fst_external _ _ _ _ _ h
      simp
    · split
      · next err h =>
        obtain ⟨c, rfl⟩ := rename_fst_external _ _ _ _ _ h
        simp
      · split
        · next err h =>
          obtain ⟨c, rfl⟩ := restart_fst_external _ _ _ _ h
          simp
        · simp
  · simp [Check, hcdn, ho, hsym, hv, hne, hm, hscan, hf, hd, hb, hopen, hwrite, hsum,
      ioCopy_fst]

theorem check_digest_exact_witness :
    (Check (testEnv testManifest "bananas\n" noErr noErr none) "1" "http://cdn/"
      (World.start testFiles)).1 = some .errBadSum ↔
    hexEncode (sha256 "bananas\n") ≠
      "e49295702f7da8670778e9b95a281b72b41b31cb16afa376034b45f59a18ea3f" :=
  check_digest_exact (testEnv testManifest "bananas\n" noErr noErr none) "1" "http://cdn/"
    "/opt/app/tool" _ "linux-amd64-binary" "bananas\n" testFiles (streams_testEnv _ _ _ _)

/-- C6 fails as stated: the expected digest is the upper-case rendering of the SHA-256 of the
artifact, equal to it up to letter case, and `Check` returns `errBadSum`. -/
theorem check_digest_case_counterexample :
    Streams (testEnv upperManifest "bananas\n" noErr noErr none) "1" "http://cdn/"
      "/opt/app/tool" "E49295702F7DA8670778E9B95A281B72B41B31CB16AFA376034B45F59A18EA3F"
      "linux-amd64-binary" "bananas\n" ∧
    asciiToLower "E49295702F7DA8670778E9B95A281B72B41B31CB16AFA376034B45F59A18EA3F" =
      hexEncode (sha256 "bananas\n") ∧
    (Check (testEnv upperManifest "bananas\n" noErr noErr none) "1" "http://cdn/"
      (World.start testFiles)).1 = some .errBadSum :=
  ⟨streams_upperManifest, by decide, by decide⟩

/-! ## C7: the run that succeeds -/

/-- C7: when the remote version differs, the manifest loop ends with the record `(d, f)`, the
artifact body `b` served under `f` has the digest `d`, the three fetches have status 200, the
staging file opens and is written in full, both renames succeed and `restart` succeeds, `Check`
returns no error, the current executable path holds exactly `b`, the backup path holds the
original bytes, and no staging file remains. -/
theorem check_success (env : Env) (version cdn executable d f b orig : String)
    (files : String → Option String)
    (hs : Streams env version cdn executable d f b)
    (hsum : hexEncode (sha256 b) = d)
    (horig : files executable = some orig)
    (hr0 : env.renameErr 0 = none) (hr1 : env.renameErr 1 = none)
    (hrestart : env.restartErr = none) :
    (Check env version cdn (World.start files)).1 = none ∧
    (Check env version cdn (World.start files)).2.files executable = some b ∧
    (Check env version cdn (World.start files)).2.files (executableOld executable) = some orig ∧
    (Check env version cdn (World.start files)).2.files (executableNew executable) = none := by
  obtain ⟨hcdn, ⟨origin, ho, hsym⟩, ⟨r, hv, hne⟩, ⟨m, hm, hscan⟩, hf, hd, hb, hopen, hwrite⟩ := hs
  simp [Check, hcdn, ho, hsym, hv, hne, hm, hscan, hf, hd, hb, hopen, hwrite, hsum, horig, hr0,
    hr1, hrestart, rename_fst, rename_files, remove_files, openfile_files, ioCopy_fst,
    ioCopy_files, World.start, executableNew_ne, executableOld_ne, executableNew_ne_old,
    ne_executableNew, ne_executableOld, executableOld_ne_new]

theorem check_success_witness :
    Streams (testEnv testManifest "bananas\n" noErr noErr none) "1" "http://cdn/" "/opt/app/tool"
      "e49295702f7da8670778e9b95a281b72b41b31cb16afa376034b45f59a18ea3f" "linux-amd64-binary"
      "bananas\n" ∧
    (Check (testEnv testManifest "bananas\n" noErr noErr none) "1" "http://cdn/"
      (World.start testFiles)).1 = none ∧
    (Check (testEnv testManifest "bananas\n" noErr noErr none) "1" "http://cdn/"
      (World.start testFiles)).2.files "/opt/app/tool" = some "bananas\n" ∧
    (Check (testEnv testManifest "bananas\n" noErr noErr none) "1" "http://cdn/"
      (World.start testFiles)).2.files (executableOld "/opt/app/tool") = some "old binary" ∧
    (Check (testEnv testManifest "bananas\n" noErr noErr none) "1" "http://cdn/"
      (World.start testFiles)).2.files (executableNew "/opt/app/tool") = none :=
  ⟨streams_testEnv _ _ _ _,
   check_success (testEnv testManifest "bananas\n" noErr noErr none) "1" "http://cdn/"
     "/opt/app/tool" _ "linux-amd64-binary" "bananas\n" "old binary" testFiles
     (streams_testEnv _ _ _ _) sha256_bananas rfl rfl rfl rfl⟩

/-! ## C8: errors before the first rename -/

/-- C8, amended: when a run of `Check` ends before its first rename (every error of stages 1 to
3), the file at the executable path is unmodified, and so is every file other than the staging
file and the backup file; the staging file is unmodified too when the run ends before `openfile`
is called on it.  When the executable path does not resolve, no file is modified at all.  The
backup file is not preserved: once the base URL is found non-empty and the path resolved, the
run starts by removing it, and it is gone unless that removal fails. -/
theorem check_early_error_frame (env : Env) (version cdn : String)
    (files : String → Option String)
    (hearly : ∀ e ∈ (Check env version cdn (World.start files)).2.trace, e.isRename = false) :
    ((¬∃ origin executable, env.osExecutable = .ok origin ∧
        env.evalSymlinks origin = .ok executable) →
      (Check env version cdn (World.start files)).2.files = files) ∧
    ∀ origin executable, env.osExecutable = .ok origin →
      env.evalSymlinks origin = .ok executable →
      (Check env version cdn (World.start files)).2.files executable = files executable ∧
      (∀ q, q ≠ executableNew executable → q ≠ executableOld executable →
        (Check env version cdn (World.start files)).2.files q = files q) ∧
      ((∀ e ∈ (Check env version cdn (World.start files)).2.trace,
          e ≠ .openfile (executableNew executable)) →
        (Check env version cdn (World.start files)).2.files (executableNew executable) =
          files (executableNew executable)) ∧
      (stringsTrimSuffix cdn "/" ≠ "" → env.removeErr 0 = none →
        (Check env version cdn (World.start files)).2.files (executableOld executable) =
          none) := by
  rw [Check_eq] at hearly ⊢
  refine ⟨?_, ?_⟩
  · intro hno
    split
    · rfl
    · split
      · rfl
      · next origin ho =>
        split
        · rfl
        · next executable hsym => exact absurd ⟨origin, executable, ho, hsym⟩ hno
  · intro origin executable ho hsym
    rw [ho] at hearly ⊢
    simp only [hsym] at hearly ⊢
    split
    · next hcdn => exact ⟨rfl, fun _ _ _ => rfl, fun _ => rfl, fun h => absurd hcdn h⟩
    · next hcdn =>
      rw [if_neg hcdn] at hearly
      refine ⟨?_, ?_, ?_, ?_⟩
      · rw [resolveAndFetch_frame _ _ _ _ _ _ hearly (Or.inl (ne_executableNew _))]
        exact remove_files_of_ne _ _ _ _ (ne_executableOld _)
      · intro q h1 h2
        rw [resolveAndFetch_frame _ _ _ _ _ _ hearly (Or.inl h1)]
        exact remove_files_of_ne _ _ _ _ h2
      · intro h1
        rw [resolveAndFetch_frame _ _ _ _ _ _ hearly (Or.inr h1)]
        exact remove_files_of_ne _ _ _ _ (executableNew_ne_old _)
      · intro _ h0
        rw [resolveAndFetch_frame _ _ _ _ _ _ hearly (Or.inl (executableOld_ne_new _))]
        exact remove_files_ok _ _ _ h0

theorem check_early_error_frame_witness :
    (Check notFoundEnv "1" "http://cdn/" (World.start staleFiles)).2.files "/opt/app/tool" =
      staleFiles "/opt/app/tool" :=
  ((check_early_error_frame notFoundEnv "1" "http://cdn/" staleFiles (by decide)).2
    "/opt/app/tool" "/opt/app/tool" rfl rfl).1

/-- C8 fails as stated: the server answers 404 to the fetch of the version, `Check` returns
`errVersion` having renamed nothing, and the backup file that existed before the run is gone. -/
theorem check_early_error_counterexample :
    (Check notFoundEnv "1" "http://cdn/" (World.start staleFiles)).1 = some .errVersion ∧
    (Check notFoundEnv "1" "http://cdn/" (World.start staleFiles)).2.trace =
      [.remove "/opt/app/.tool.old", .get "http://cdn/version"] ∧
    staleFiles "/opt/app/.tool.old" = some "stale backup" ∧
    (Check notFoundEnv "1" "http://cdn/" (World.start staleFiles)).2.files "/opt/app/.tool.old" =
      none := by
  decide

/-! ## C9: no matching record -/

/-- C9, amended: when no line of the manifest holds the OS token (in the line lower-cased by
`strings.ToLower`), the architecture token and a space, the empty manifest included, `Check`
returns `errNoMatch`; its calls are the removal of the stale backup and the fetches of the
version and of the manifest: no artifact is fetched, no staging file is opened, nothing is
renamed and `restart` is not called.  The tokens are looked for in the whole line, digest
included, not in the filename alone. -/
theorem check_no_match (env : Env) (version cdn executable r m : String)
    (files : String → Option String)
    (hcdn : stringsTrimSuffix cdn "/" ≠ "")
    (hexe : ∃ origin, env.osExecutable = .ok origin ∧ env.evalSymlinks origin = .ok executable)
    (hv : env.httpGet (stringsTrimSuffix cdn "/" ++ "/version") = .ok ⟨200, r, none⟩)
    (hne : r ≠ version)
    (hm : env.httpGet (stringsTrimSuffix cdn "/" ++ "/sha256sums") = .ok ⟨200, m, none⟩)
    (hnone : ∀ line ∈ bufioScanLines m,
      ¬(stringsContains (stringsToLower env.unicodeToLower line) env.GOOS = true ∧
        stringsContains line env.GOARCH = true ∧ (stringsSplitN2 line).length = 2)) :
    (Check env version cdn (World.start files)).1 = some .errNoMatch ∧
    (Check env version cdn (World.start files)).2.trace =
      [.remove (executableOld executable),
       .get (stringsTrimSuffix cdn "/" ++ "/version"),
       .get (stringsTrimSuffix cdn "/" ++ "/sha256sums")] := by
  obtain ⟨origin, ho, hsym⟩ := hexe
  have hscan : scanSignatures env.unicodeToLower env.GOOS env.GOARCH (bufioScanLines m) =
      ("", "") := by
    have h := scanSignatures_skip env.unicodeToLower env.GOOS env.GOARCH (bufioScanLines m) []
      hnone
    rw [List.append_nil] at h
    rw [h]
    rfl
  simp [Check, hcdn, ho, hsym, hv, hne, hm, hscan, World.start]

theorem check_no_match_witness :
    (∀ line ∈ bufioScanLines noRecordManifest,
      ¬(stringsContains (stringsToLower notConsulted line) "linux" = true ∧
        stringsContains line "amd64" = true ∧ (stringsSplitN2 line).length = 2)) ∧
    (Check (testEnv noRecordManifest "bananas\n" noErr noErr none) "1" "http://cdn/"
      (World.start testFiles)).1 = some .errNoMatch ∧
    (Check (testEnv noRecordManifest "bananas\n" noErr noErr none) "1" "http://cdn/"
      (World.start testFiles)).2.trace =
      [.remove (executableOld "/opt/app/tool"),
       .get (stringsTrimSuffix "http://cdn/" "/" ++ "/version"),
       .get (stringsTrimSuffix "http://cdn/" "/" ++ "/sha256sums")] :=
  ⟨by decide,
   check_no_match (testEnv noRecordManifest "bananas\n" noErr noErr none) "1" "http://cdn/"
     "/opt/app/tool" "2" noRecordManifest testFiles (by decide) ⟨"/opt/app/tool", rfl, rfl⟩
     (by rfl) (by decide) (by rfl) (by decide)⟩

/-- C9 fails as stated: on a host `linux`/`386` the manifest has no record whose filename holds
both tokens, yet `Check` does not return `errNoMatch`: the digest of the record of
`tool-linux-amd64` holds `386`, so that the run fetches that artifact, finds its digest right
and puts it in the place of the executable. -/
theorem check_no_match_counterexample :
    specSelect notConsulted "linux" "386" manifestAmd64 = none ∧
    (Check envAmd64Only "1" "http://cdn/" (World.start testFiles)).1 = none ∧
    fetched (Check envAmd64Only "1" "http://cdn/" (World.start testFiles)).2.trace =
      ["http://cdn/version", "http://cdn/sha256sums", "http://cdn/tool-linux-amd64"] ∧
    (Check envAmd64Only "1" "http://cdn/" (World.start testFiles)).2.files "/opt/app/tool" =
      some "amd64 build 2\n" := by
  decide

/-! ## C10: the version is current -/

/-- C10: when the base URL is not empty (once its trailing slash is trimmed), the executable path
resolves, and the fetch of the version has status 200 and a body equal to the current version,
`Check` returns `errNewest`, the fetch of the version is the only fetch (no call follows it), and
the file at the executable path is unchanged. -/
theorem check_newest (env : Env) (version cdn executable : String)
    (files : String → Option String)
    (hcdn : stringsTrimSuffix cdn "/" ≠ "")
    (hexe : ∃ origin, env.osExecutable = .ok origin ∧ env.evalSymlinks origin = .ok executable)
    (hv : env.httpGet (stringsTrimSuffix cdn "/" ++ "/version") = .ok ⟨200, version, none⟩) :
    (Check env version cdn (World.start files)).1 = some .errNewest ∧
    (Check env version cdn (World.start files)).2.trace =
      [.remove (executableOld executable), .get (stringsTrimSuffix cdn "/" ++ "/version")] ∧
    (Check env version cdn (World.start files)).2.files executable = files executable := by
  obtain ⟨origin, ho, hsym⟩ := hexe
  simp [Check, hcdn, ho, hsym, hv, remove_files, World.start, ne_executableOld]

theorem check_newest_witness :
    (Check (testEnv testManifest "bananas\n" noErr noErr none) "2" "http://cdn/"
      (World.start testFiles)).1 = some .errNewest ∧
    (Check (testEnv testManifest "bananas\n" noErr noErr none) "2" "http://cdn/"
      (World.start testFiles)).2.trace =
      [.remove (executableOld "/opt/app/tool"),
       .get (stringsTrimSuffix "http://cdn/" "/" ++ "/version")] ∧
    (Check (testEnv testManifest "bananas\n" noErr noErr none) "2" "http://cdn/"
      (World.start testFiles)).2.files "/opt/app/tool" = testFiles "/opt/app/tool" :=
  check_newest (testEnv testManifest "bananas\n" noErr noErr none) "2" "http://cdn/"
    "/opt/app/tool" testFiles (by decide) ⟨"/opt/app/tool", rfl, rfl⟩ (by rfl)

end Modernizer
